import Mathlib

/-
Verification of the lbmjs D2Q9 lattice-Boltzmann solver.

The embedding below follows src/server.js (the main draft), with
src/unnamed/part_000 (the second draft) and src/helpers.js where a claim
refers to them.  JavaScript floating-point values are modelled as rational
numbers; Float32Array distributions become functions Fin 9 → ℚ.
Definitions come first, then the theorems.
-/

namespace LBM

/-! ## D2Q9 constants (src/server.js lines 76-83) -/

def w0 : ℚ := 4 / 9
def w1 : ℚ := 1 / 9
def w2 : ℚ := 1 / 36

/-- Lattice weights, clockwise order 0, N, NE, E, SE, S, SW, W, NW. -/
def weights : Fin 9 → ℚ := ![w0, w1, w2, w1, w2, w1, w2, w1, w2]

/-- Direction x-components, same clockwise order. -/
def ex : Fin 9 → ℚ := ![0, 0, 1, 1, 1, 0, -1, -1, -1]

/-- Direction y-components, same clockwise order. -/
def ey : Fin 9 → ℚ := ![0, 1, 1, 0, -1, -1, -1, 0, 1]

/-- Source constant rho0 (src/server.js line 50). -/
def rho0 : ℚ := 1

/-- Source global omega (src/server.js line 49). -/
def omega : ℚ := 1

/-- Source constant tau (src/server.js line 59). -/
def tau : ℚ := 3 / 5

def STEPS_IN_FRAME : ℕ := 5
def rows : ℕ := 20
def cols : ℕ := 60
def T_MAX : ℕ := 5

/-! ## Macroscopic quantities (src/server.js lines 204-228) -/

/-- getDensity: sums the nine distribution components. -/
def getDensity (densities : Fin 9 → ℚ) : ℚ := ∑ i, densities i

/-- getVelocity: total density and momentum accumulated in one loop, then the
guard tDensity < 1e-14 returns [0, 0] without dividing; otherwise the
momentum is divided by the total density. -/
def getVelocity (densities : Fin 9 → ℚ) : ℚ × ℚ :=
  let tDensity := ∑ i, densities i
  let vx := ∑ i, ex i * densities i
  let vy := ∑ i, ey i * densities i
  if tDensity < 1 / 10 ^ 14 then (0, 0)
  else (vx / tDensity, vy / tDensity)

/-! ## Equilibrium distribution (src/server.js lines 252-295) -/

/-- The velocity pair (ux, uy) computed inside equilibrium: momentum summed
over the nine components, divided by the total density only when that density
is positive, then the x-forcing added only when the JavaScript guard
if (accelXTau) fires, i.e. when accelXTau is a truthy (nonzero) number.
The y-forcing line is commented out in the source and is not applied. -/
def equilibriumVelocity (densities : Fin 9 → ℚ) (accelXTau : ℚ) : ℚ × ℚ :=
  let totalDensity := ∑ i, densities i
  let ux0 := ∑ i, ex i * densities i
  let uy0 := ∑ i, ey i * densities i
  let ux1 := if 0 < totalDensity then ux0 / totalDensity else ux0
  let uy1 := if 0 < totalDensity then uy0 / totalDensity else uy0
  (if accelXTau ≠ 0 then ux1 + accelXTau else ux1, uy1)

/-- equilibrium: feq_i = w_i * rho * (1 + 3 term + 4.5 term^2 - 1.5 u^2) with
term = e_i . u, using the velocity of equilibriumVelocity.  The accelYTau
parameter is accepted but never used, exactly as in the source. -/
def equilibrium (densities : Fin 9 → ℚ) (accelXTau accelYTau : ℚ) : Fin 9 → ℚ :=
  let totalDensity := ∑ i, densities i
  let u := equilibriumVelocity densities accelXTau
  let u2 := u.1 * u.1 + u.2 * u.2
  fun i =>
    let term := ex i * u.1 + ey i * u.2
    weights i * totalDensity * (1 + 3 * term + (9 / 2) * term * term + (-(3 / 2)) * u2)

/-! ## Collision operators (src/server.js lines 357-371) -/

/-- collision: the tau-parameterized BGK relaxation, f_i := f_i - (f_i - feq_i) / tau. -/
def collision (densities eqDist : Fin 9 → ℚ) (t : ℚ) : Fin 9 → ℚ :=
  fun i => densities i - (densities i - eqDist i) / t

/-- fastCollision: the omega-parameterized BGK relaxation, f_i := f_i - omega * (f_i - feq_i). -/
def fastCollision (densities eqDist : Fin 9 → ℚ) (om : ℚ) : Fin 9 → ℚ :=
  fun i => densities i - om * (densities i - eqDist i)

/-! ## Direction reversal (src/server.js lines 160-181 and 330-355) -/

/-- Property access on a JavaScript number: always undefined.  The switch in
reverseDir compares its numeric argument against such property reads. -/
def numberProp (dir : ℕ) (field : String) : Option ℕ := none

/-- reverseDir as written in the source: every case label is a property
lookup dir.N, dir.S, ... on the numeric argument, which is undefined, so no
case ever matches and the default branch returns dir.none, also undefined. -/
def reverseDir (dir : ℕ) : Option ℕ :=
  if some dir = numberProp dir "N" then numberProp dir "S"
  else if some dir = numberProp dir "S" then numberProp dir "N"
  else if some dir = numberProp dir "W" then numberProp dir "E"
  else if some dir = numberProp dir "E" then numberProp dir "W"
  else if some dir = numberProp dir "NE" then numberProp dir "SW"
  else if some dir = numberProp dir "SE" then numberProp dir "NW"
  else if some dir = numberProp dir "NW" then numberProp dir "SE"
  else if some dir = numberProp dir "SW" then numberProp dir "NE"
  else numberProp dir "none"

/-- The direction-reversal table hardcoded in bouncebackObstacles
(src/server.js lines 336-346): newDensities[i] is read from component
bounceBackDir i of the neighbor, with the pairs N to S, NE to SW, E to W,
SE to NW and back, and the rest direction fixed. -/
def bounceBackDir : Fin 9 → Fin 9 := ![0, 5, 6, 7, 8, 1, 2, 3, 4]

/-! ## The streaming neighbor index (src/server.js lines 297-299)

getNextPos builds the key string of the cell a direction is pulled from:
x + ex[i] and y - ex[i], with the ex table used for both coordinates.  It is
modelled as the coordinate pair its key string denotes.  propagate
(lines 302-328) additionally calls it with only the direction argument,
leaving x and y undefined, so every key it actually builds is the string
NaN,NaN. -/

def getNextPos (directionIndex : Fin 9) (x y : ℚ) : ℚ × ℚ :=
  (x + ex directionIndex, y - ex directionIndex)

/-! ## Lattice model (src/server.js lines 98-139)

A cell as built by initLattice carries a type string, a velocity pair and,
for fluid cells only, a 9-component distribution; the solid overwrite at
lines 125-130 stores no density field, modelled by an Option.  The per-cell
ex and ey copies are the constant tables above and are not repeated here. -/

structure Cell where
  type : String
  velocity : ℚ × ℚ
  density : Option (Fin 9 → ℚ)
deriving DecidableEq

/-- A fluid cell as initLattice first creates every cell: distribution
initialized to the weights (rho0 = 1), zero velocity. -/
def fluidCellInit : Cell :=
  { type := "fluid", velocity := (0, 0), density := some weights }

/-- A solid cell as the obstacle loop overwrites it: no density field. -/
def solidCellInit : Cell :=
  { type := "solid", velocity := (0, 0), density := none }

/-- The lattice: the cells Map is keyed by the string x,y over exactly the
grid coordinates 0 <= x < nx, 0 <= y < ny, so it is modelled as a total
function on coordinate pairs read only inside that range. -/
structure Lattice where
  nx : ℕ
  ny : ℕ
  cells : (ℕ × ℕ) → Cell

/-- initLattice: every grid cell is created as a fluid cell with the weight
distribution, then each obstacle coordinate is overwritten with a solid
cell.  The 100 draws Math.floor(Math.random() * cols) and
Math.floor(Math.random() * rows), each inside the grid by construction, are
the obstacles parameter. -/
def initLattice (obstacles : List (ℕ × ℕ)) (nx ny : ℕ) : Lattice :=
  { nx := nx, ny := ny,
    cells := fun p => if p ∈ obstacles then solidCellInit else fluidCellInit }

/-- The coordinates of one grid row y, in x order. -/
def rowCoords (nx y : ℕ) : List (ℕ × ℕ) := (List.range nx).map (fun x => (x, y))

/-- All grid coordinates in the creation (and sweep) order of the source:
y outer, x inner. -/
def coordsList (nx ny : ℕ) : List (ℕ × ℕ) := (List.range ny).flatMap (rowCoords nx)

/-- Array.from(cells.values()): the values of the cells Map, in insertion
order, which is the row-major creation order (the obstacle overwrites keep
the original slot of their key). -/
def cellsValues (L : Lattice) : List Cell := (coordsList L.nx L.ny).map L.cells

/-- fluidNodesLength (src/helpers.js lines 16-19); the
fluidNodes && fluidNodes.length || 0 dance evaluates to the filtered
length. -/
def fluidNodesLength (L : Lattice) : ℕ :=
  ((cellsValues L).filter (fun c => c.type == "fluid")).length

/-- solidNodesLength (src/helpers.js lines 25-28). -/
def solidNodesLength (L : Lattice) : ℕ :=
  ((cellsValues L).filter (fun c => c.type == "solid")).length

/-! ## Streaming (src/server.js lines 297-355)

Both propagate and bouncebackObstacles loop with the guard
x < latticeSrc.length - 1 starting at x = 1.  A Lattice object has fields
cells, solidNodesIndices, nx and ny but no length, so latticeSrc.length is
undefined, the bound is NaN, the guard is false and neither loop body ever
executes: both functions return with latticeDest unmodified. -/

/-- JavaScript property read latticeSrc.length: undefined. -/
def latticeLength (latticeSrc : Lattice) : Option ℚ := none

/-- JavaScript subtraction propagating undefined/NaN. -/
def jsSub : Option ℚ → Option ℚ → Option ℚ
  | some a, some b => some (a - b)
  | _, _ => none

/-- JavaScript comparison: any comparison against NaN is false. -/
def jsLt : Option ℚ → Option ℚ → Bool
  | some a, some b => a < b
  | _, _ => false

/-- The entry guard of the sweep loops of propagate and bouncebackObstacles. -/
def propagateSweepRuns (latticeSrc : Lattice) : Bool :=
  jsLt (some 1) (jsSub (latticeLength latticeSrc) (some 1))

/-- bouncebackObstacles: the loop guard is false at entry (see
propagateSweepRuns_false below), so the function returns latticeDest
unchanged. -/
def bouncebackObstacles (latticeSrc latticeDest : Lattice) : Lattice := latticeDest

/-- propagate: the loop guard is false at entry, so the only effect is the
trailing call to bouncebackObstacles, itself a no-op. -/
def propagate (latticeSrc latticeDest : Lattice) : Lattice :=
  bouncebackObstacles latticeSrc latticeDest

/-! ## collideAndStream (src/server.js lines 373-414)

GHOST_LATTICE is Object.assign({}, LATTICE): a shallow copy whose cells
field is the same Map object, so both lattices are one shared cell store
and the model keeps a single Lattice state.  For each grid coordinate the
inner STEPS_IN_FRAME loop runs propagate (a no-op, with src and dest the
shared state regardless of the isGhost toggle) and then, when the cell is
fluid, equilibrium and collision on that cell in place.  equilibrium is
called as equilibrium(cell.density): both accel arguments are undefined,
so the truthiness guard on the forcing never fires and the forcing is
zero. -/

/-- One collision visit of a cell: equilibrium of its distribution (zero
effective forcing), then collision with the global omega passed as the
relaxation argument, then velocity recomputed from the post-collision
distribution.  Non-fluid cells are left untouched.  The none branch is
never reached: every cell the fluid guard accepts was built by initLattice
with a distribution. -/
def collideCell (om : ℚ) (cell : Cell) : Cell :=
  if cell.type = "fluid" then
    match cell.density with
    | some d =>
        let eqDist := equilibrium d 0 0
        let densitiesAfterCollision := collision d eqDist om
        { cell with density := some densitiesAfterCollision,
                    velocity := getVelocity densitiesAfterCollision }
    | none => cell
  else cell

/-- One iteration of the STEPS_IN_FRAME loop at coordinate p: propagate on
the shared state, then the guarded collision update written back into the
shared cells Map. -/
def visitOnce (om : ℚ) (L : Lattice) (p : ℕ × ℕ) : Lattice :=
  let streamed := propagate L L
  { streamed with
    cells := Function.update streamed.cells p (collideCell om (streamed.cells p)) }

/-- The full STEPS_IN_FRAME loop at one coordinate. -/
def visitCell (om : ℚ) (L : Lattice) (p : ℕ × ℕ) : Lattice :=
  (List.range STEPS_IN_FRAME).foldl (fun acc _ => visitOnce om acc p) L

/-- collideAndStream: the sweep over the grid, y outer, x inner. -/
def collideAndStream (om : ℚ) (L : Lattice) : Lattice :=
  (coordsList L.nx L.ny).foldl (visitCell om) L

/-! ## Simulation driver (src/server.js lines 418-447)

simulate performs no validation of any configuration value: it runs the
T_MAX step loop unconditionally, adding rows * cols to the processed
counter each step.  The relaxation rate is threaded to the collision calls
and nothing in the code branches on it or can raise an error. -/

def simulateLoop (om : ℚ) : ℕ → Lattice × ℕ → Lattice × ℕ
  | 0, s => s
  | n + 1, (L, processed) =>
      simulateLoop om n (collideAndStream om L, processed + rows * cols)

/-- simulate, with the module-level omega binding as a parameter: T_MAX
steps, each adding rows * cols processed cell updates. -/
def simulateRun (om : ℚ) (L : Lattice) : Lattice × ℕ :=
  simulateLoop om T_MAX (L, 0)

/-! ## Buffer identity (src/server.js lines 138-139)

GHOST_LATTICE = Object.assign({}, LATTICE) copies the field values of the
lattice object; for the cells field that value is a reference to the Map,
not the Map contents.  The heap model below makes the reference explicit:
a lattice object holds a numeric reference into a heap of cell stores, and
the shallow copy duplicates the reference. -/

/-- A lattice object as a record of references and scalars, as JavaScript
stores it. -/
structure LatticeObj where
  cellsRef : ℕ
  solidNodesIndicesRef : ℕ
  nx : ℕ
  ny : ℕ
deriving DecidableEq

/-- LATTICE: its cells Map lives at heap reference 0. -/
def LATTICE_obj : LatticeObj :=
  { cellsRef := 0, solidNodesIndicesRef := 1, nx := 60, ny := 20 }

/-- Object.assign({}, src): a new object whose fields hold the same values,
reference values included. -/
def objectAssignCopy (src : LatticeObj) : LatticeObj :=
  { cellsRef := src.cellsRef, solidNodesIndicesRef := src.solidNodesIndicesRef,
    nx := src.nx, ny := src.ny }

/-- GHOST_LATTICE as built on src/server.js line 139. -/
def GHOST_LATTICE_obj : LatticeObj := objectAssignCopy LATTICE_obj

/-- The heap of cell stores, indexed by reference. -/
def Heap : Type := ℕ → (ℕ × ℕ) → Cell

/-- cells.set(x,y, c) through the Map reference r. -/
def heapWrite (h : Heap) (r : ℕ) (p : ℕ × ℕ) (c : Cell) : Heap :=
  fun r' => if r' = r then Function.update (h r) p c else h r'

/-- The heap at simulation start: the one Map, all fluid cells. -/
def initialHeap : Heap := fun _ => fun _ => fluidCellInit

/-- A distribution with f_E = 1 and f_W = -2: total density -1, momentum
(3, 0). -/
def fC8 : Fin 9 → ℚ := ![0, 0, 0, 1, 0, 0, 0, -2, 0]

/-! ## Theorems: facts about the constant tables and dead code paths -/

theorem reverseDir_always_undefined (dir : ℕ) : reverseDir dir = none := rfl

theorem propagateSweepRuns_false (L : Lattice) : propagateSweepRuns L = false := rfl

theorem weights_sum : (∑ i, weights i) = 1 := by
  norm_num [Fin.sum_univ_succ, weights, w0, w1, w2]

theorem ex_weights_sum : (∑ i, ex i * weights i) = 0 := by
  norm_num [Fin.sum_univ_succ, weights, ex, w0, w1, w2]

theorem ey_weights_sum : (∑ i, ey i * weights i) = 0 := by
  norm_num [Fin.sum_univ_succ, weights, ey, w0, w1, w2]

theorem simulateLoop_processed (om : ℚ) :
    ∀ (n : ℕ) (s : Lattice × ℕ), (simulateLoop om n s).2 = s.2 + n * (rows * cols) := by
  intro n
  induction n with
  | zero => intro s; simp [simulateLoop]
  | succ k ih =>
      intro s
      rw [show simulateLoop om (k + 1) s =
            simulateLoop om k (collideAndStream om s.1, s.2 + rows * cols) from rfl, ih]
      ring

/-! ## Claim C2 -/

/-- Claim C2: for every 9-component distribution and every equilibrium
distribution with the same total density, and any relaxation parameter,
both collision operators leave the total density unchanged within 1e-6
(in the rational model they preserve it exactly). -/
theorem collision_mass_conserving (d feq : Fin 9 → ℚ) (t om : ℚ)
    (h : getDensity feq = getDensity d) :
    |getDensity (collision d feq t) - getDensity d| ≤ 1 / 1000000 ∧
    |getDensity (fastCollision d feq om) - getDensity d| ≤ 1 / 1000000 := by
  have hsum : (∑ i, (d i - feq i)) = 0 := by
    simp only [getDensity] at h
    rw [Finset.sum_sub_distrib, h, sub_self]
  constructor
  · have : getDensity (collision d feq t) = getDensity d := by
      simp only [getDensity, collision, Finset.sum_sub_distrib, ← Finset.sum_div, hsum]
      simp
    rw [this, sub_self, abs_zero]
    norm_num
  · have : getDensity (fastCollision d feq om) = getDensity d := by
      simp only [getDensity, fastCollision, Finset.sum_sub_distrib, ← Finset.mul_sum, hsum]
      simp
    rw [this, sub_self, abs_zero]
    norm_num

theorem collision_mass_conserving_witness :
    getDensity weights = getDensity weights ∧
    |getDensity (collision weights weights tau) - getDensity weights| ≤ 1 / 1000000 ∧
    |getDensity (fastCollision weights weights omega) - getDensity weights| ≤ 1 / 1000000 :=
  ⟨rfl, collision_mass_conserving weights weights tau omega rfl⟩

/-! ## Claim C3 -/

/-- Claim C3: when the total density is positive, the momentum of the input
distribution vanishes (so the velocity the calculator derives is (0, 0)) and
the forcing term is zero, the equilibrium calculator returns exactly
w_i times the total density in every direction. -/
theorem equilibrium_zero_velocity_fixed_point (d : Fin 9 → ℚ)
    (hx : (∑ i, ex i * d i) = 0) (hy : (∑ i, ey i * d i) = 0)
    (hrho : 0 < getDensity d) :
    equilibrium d 0 0 = fun i => weights i * getDensity d := by
  funext i
  simp only [equilibrium, equilibriumVelocity, hx, hy, getDensity]
  simp [zero_div]

theorem equilibrium_zero_velocity_fixed_point_witness :
    (∑ i, ex i * weights i) = 0 ∧ (∑ i, ey i * weights i) = 0 ∧
    0 < getDensity weights ∧
    equilibrium weights 0 0 = fun i => weights i * getDensity weights :=
  ⟨ex_weights_sum, ey_weights_sum,
   by rw [getDensity, weights_sum]; norm_num,
   equilibrium_zero_velocity_fixed_point weights ex_weights_sum ey_weights_sum
     (by rw [getDensity, weights_sum]; norm_num)⟩

/-! ## Claim C6 -/

/-- Claim C6: with omega = 1 / tau, the tau-parameterized collision and the
omega-parameterized fastCollision produce identical output distributions. -/
theorem collision_tau_omega_equivalent (d feq : Fin 9 → ℚ) (t om : ℚ)
    (h : om = 1 / t) :
    collision d feq t = fastCollision d feq om := by
  subst h
  funext i
  simp only [collision, fastCollision]
  ring

theorem collision_tau_omega_equivalent_witness :
    ((1 : ℚ) / 2 = 1 / 2) ∧ collision weights ex 2 = fastCollision weights ex (1 / 2) :=
  ⟨rfl, collision_tau_omega_equivalent weights ex 2 (1 / 2) (by norm_num)⟩

/-! ## Claim C7 -/

/-- Claim C7: the direction-reversal table used by bounce-back maps each of
the nine lattice directions to its opposite - N (1) to S (5), E (3) to W (7),
NE (2) to SW (6), SE (4) to NW (8), each also back, and rest (0) to itself -
and is an involution on the direction set. -/
theorem bounceBackDir_involution_pairs :
    bounceBackDir 0 = 0 ∧
    bounceBackDir 1 = 5 ∧ bounceBackDir 5 = 1 ∧
    bounceBackDir 3 = 7 ∧ bounceBackDir 7 = 3 ∧
    bounceBackDir 2 = 6 ∧ bounceBackDir 6 = 2 ∧
    bounceBackDir 4 = 8 ∧ bounceBackDir 8 = 4 ∧
    ∀ i, bounceBackDir (bounceBackDir i) = i := by
  refine ⟨rfl, rfl, rfl, rfl, rfl, rfl, rfl, rfl, rfl, ?_⟩
  decide

/-! ## Claim C9: uniform equilibrium state is a fixed point of one step -/

theorem equilibrium_weights_fixed : equilibrium weights 0 0 = weights := by
  funext i
  simp [equilibrium, equilibriumVelocity, ex_weights_sum, ey_weights_sum, weights_sum]

theorem collision_self (d : Fin 9 → ℚ) (t : ℚ) : collision d d t = d := by
  funext i
  simp [collision]

theorem getVelocity_weights : getVelocity weights = (0, 0) := by
  rw [getVelocity]
  simp only [ex_weights_sum, ey_weights_sum, weights_sum]
  norm_num

theorem collideCell_fixed (om : ℚ) : collideCell om fluidCellInit = fluidCellInit := by
  simp [collideCell, fluidCellInit, equilibrium_weights_fixed, collision_self,
    getVelocity_weights]

theorem visitOnce_fixed (om : ℚ) (p : ℕ × ℕ) (L : Lattice)
    (h : L.cells = fun _ => fluidCellInit) :
    (visitOnce om L p).cells = fun _ => fluidCellInit := by
  show Function.update L.cells p (collideCell om (L.cells p)) = fun _ => fluidCellInit
  rw [h]
  show Function.update (fun _ => fluidCellInit) p (collideCell om fluidCellInit) = _
  rw [collideCell_fixed]
  exact Function.update_eq_self p (fun _ => fluidCellInit)

theorem foldl_visitOnce_fixed (om : ℚ) (p : ℕ × ℕ) :
    ∀ (l : List ℕ) (L : Lattice), L.cells = (fun _ => fluidCellInit) →
      ((l.foldl (fun acc _ => visitOnce om acc p) L).cells) = fun _ => fluidCellInit := by
  intro l
  induction l with
  | nil => intro L h; exact h
  | cons a t ih =>
      intro L h
      exact ih (visitOnce om L p) (visitOnce_fixed om p L h)

theorem visitCell_fixed (om : ℚ) (p : ℕ × ℕ) (L : Lattice)
    (h : L.cells = fun _ => fluidCellInit) :
    (visitCell om L p).cells = fun _ => fluidCellInit :=
  foldl_visitOnce_fixed om p (List.range STEPS_IN_FRAME) L h

theorem foldl_visitCell_fixed (om : ℚ) :
    ∀ (ps : List (ℕ × ℕ)) (L : Lattice), L.cells = (fun _ => fluidCellInit) →
      ((ps.foldl (visitCell om) L).cells) = fun _ => fluidCellInit := by
  intro ps
  induction ps with
  | nil => intro L h; exact h
  | cons p t ih =>
      intro L h
      exact ih (visitCell om L p) (visitCell_fixed om p L h)

theorem initLattice_nil_cells (nx ny : ℕ) :
    (initLattice [] nx ny).cells = fun _ => fluidCellInit := by
  funext p
  simp [initLattice]

theorem collideAndStream_fixed (om : ℚ) (nx ny : ℕ) :
    (collideAndStream om (initLattice [] nx ny)).cells = fun _ => fluidCellInit :=
  foldl_visitCell_fixed om (coordsList nx ny) (initLattice [] nx ny)
    (initLattice_nil_cells nx ny)

/-- Claim C9: starting from a lattice with no obstacles whose every cell
carries the equilibrium weight distribution (rho0 = 1, zero velocity), one
full collideAndStream step with the omega of the source (1) and the zero
effective forcing of the source leaves every cell at density 1 and velocity
(0, 0). -/
theorem collideAndStream_uniform_fixed_point (nx ny x y : ℕ)
    (hx : x < nx) (hy : y < ny) :
    ((collideAndStream omega (initLattice [] nx ny)).cells (x, y)).density.map getDensity
        = some 1 ∧
    ((collideAndStream omega (initLattice [] nx ny)).cells (x, y)).velocity = (0, 0) := by
  rw [collideAndStream_fixed omega nx ny]
  refine ⟨?_, rfl⟩
  show (some weights).map getDensity = some 1
  simp [getDensity, weights_sum]

theorem collideAndStream_uniform_fixed_point_witness :
    (1 < 3 ∧ 2 < 3) ∧
    (((collideAndStream omega (initLattice [] 3 3)).cells (1, 2)).density.map getDensity
        = some 1 ∧
     ((collideAndStream omega (initLattice [] 3 3)).cells (1, 2)).velocity = (0, 0)) :=
  ⟨⟨by norm_num, by norm_num⟩,
   collideAndStream_uniform_fixed_point 3 3 1 2 (by norm_num) (by norm_num)⟩

/-! ## Claim C10: every initialized cell is fluid or solid, counts partition -/

theorem length_filter_fluid_add_solid :
    ∀ l : List Cell, (∀ c ∈ l, c.type = "fluid" ∨ c.type = "solid") →
      ((l.filter (fun c => c.type == "fluid")).length
        + (l.filter (fun c => c.type == "solid")).length = l.length) := by
  intro l
  induction l with
  | nil => intro _; simp
  | cons c t ih =>
      intro h
      have hc := h c (by simp)
      have ht : ∀ c' ∈ t, c'.type = "fluid" ∨ c'.type = "solid" :=
        fun c' h' => h c' (by simp [h'])
      rcases hc with hf | hs
      · have h2 := ih ht
        simp [List.filter_cons, hf]
        omega
      · have h2 := ih ht
        simp [List.filter_cons, hs]
        omega

theorem coordsList_length (nx ny : ℕ) : (coordsList nx ny).length = nx * ny := by
  induction ny with
  | zero => simp [coordsList]
  | succ n ih =>
      simp only [coordsList, List.range_succ, List.flatMap_append] at *
      simp [ih, rowCoords, Nat.mul_succ, Nat.add_comm]

theorem cellsValues_type (obstacles : List (ℕ × ℕ)) (nx ny : ℕ) :
    ∀ c ∈ cellsValues (initLattice obstacles nx ny),
      c.type = "fluid" ∨ c.type = "solid" := by
  intro c hc
  simp only [cellsValues, List.mem_map] at hc
  obtain ⟨p, _, rfl⟩ := hc
  by_cases hp : p ∈ obstacles
  · right; simp [initLattice, hp, solidCellInit]
  · left; simp [initLattice, hp, fluidCellInit]

/-- Claim C10: every cell of an initialized lattice has type fluid or solid,
and the fluid-node count plus the solid-node count of the helper queries is
nx * ny.  The hypothesis mirrors the source obstacle draws
Math.floor(Math.random() * cols) < cols and Math.floor(Math.random() * rows)
< rows, which keep the key set of the cells Map exactly the grid. -/
theorem initLattice_partition (obstacles : List (ℕ × ℕ)) (nx ny : ℕ)
    (hin : ∀ p ∈ obstacles, p.1 < nx ∧ p.2 < ny) :
    (∀ p : ℕ × ℕ, p.1 < nx → p.2 < ny →
        ((initLattice obstacles nx ny).cells p).type = "fluid" ∨
        ((initLattice obstacles nx ny).cells p).type = "solid") ∧
    fluidNodesLength (initLattice obstacles nx ny)
      + solidNodesLength (initLattice obstacles nx ny) = nx * ny := by
  constructor
  · intro p _ _
    by_cases hp : p ∈ obstacles
    · right; simp [initLattice, hp, solidCellInit]
    · left; simp [initLattice, hp, fluidCellInit]
  · rw [fluidNodesLength, solidNodesLength,
      length_filter_fluid_add_solid _ (cellsValues_type obstacles nx ny)]
    rw [cellsValues, List.length_map]
    exact coordsList_length nx ny

theorem initLattice_partition_witness :
    (∀ p ∈ [((1 : ℕ), (1 : ℕ))], p.1 < 2 ∧ p.2 < 2) ∧
    ((∀ p : ℕ × ℕ, p.1 < 2 → p.2 < 2 →
        ((initLattice [(1, 1)] 2 2).cells p).type = "fluid" ∨
        ((initLattice [(1, 1)] 2 2).cells p).type = "solid") ∧
     fluidNodesLength (initLattice [(1, 1)] 2 2)
       + solidNodesLength (initLattice [(1, 1)] 2 2) = 2 * 2) :=
  ⟨by decide, initLattice_partition [(1, 1)] 2 2 (by decide)⟩

/-! ## Claim C1 -/

/-- Claim C1 is violated by the code: for direction 3 (E, e = (1, 0)) at the
interior cell (2, 2), getNextPos addresses (3, 1), while the upstream
neighbor of the claim is (2 - ex 3, 2 - ey 3) = (1, 2).  In addition
propagate calls getNextPos with only the direction argument and its sweep
loops never execute at all (propagateSweepRuns_false), so no pull in the
claimed shape is ever performed. -/
theorem getNextPos_not_upstream :
    getNextPos 3 2 2 = (3, 1) ∧
    ((2 : ℚ) - ex 3, (2 : ℚ) - ey 3) = (1, 2) ∧
    getNextPos 3 2 2 ≠ ((2 : ℚ) - ex 3, (2 : ℚ) - ey 3) := by
  refine ⟨?_, ?_, ?_⟩ <;> norm_num [getNextPos, ex, ey]

/-! ## Claim C4 -/

/-- Claim C4 is violated by the code: the ghost (next) buffer and the main
(current) buffer hold the same cells reference, so a write of cell (2, 2)
performed through the next buffer is immediately observed when the current
buffer reads cell (2, 2) in the same sweep, and the value read has indeed
changed. -/
theorem buffers_share_cell_storage :
    GHOST_LATTICE_obj.cellsRef = LATTICE_obj.cellsRef ∧
    (heapWrite initialHeap GHOST_LATTICE_obj.cellsRef (2, 2) solidCellInit)
        LATTICE_obj.cellsRef (2, 2) = solidCellInit ∧
    solidCellInit ≠ initialHeap LATTICE_obj.cellsRef (2, 2) := by
  refine ⟨rfl, ?_, ?_⟩
  · show (if (0 : ℕ) = 0 then Function.update (initialHeap 0) (2, 2) solidCellInit
        else initialHeap 0) (2, 2) = solidCellInit
    simp
  · intro h
    have := congrArg Cell.type h
    simp [solidCellInit, initialHeap, fluidCellInit] at this

/-! ## Claim C5 -/

/-- Claim C5 is violated by the code: with omega = 2.5 the simulation runs
all T_MAX = 5 steps over the 20 x 60 grid, accumulating 6000 processed cell
updates; no ConfigurationError exists anywhere in the source (simulateRun
has no error outcome because simulate contains no validation and no throw),
so the out-of-range value is silently accepted even though 2.5 is outside
(0, 2). -/
theorem simulate_accepts_out_of_range_omega :
    (simulateRun (5 / 2) (initLattice [] cols rows)).2 = 6000 ∧
    ¬(0 < (5 : ℚ) / 2 ∧ (5 : ℚ) / 2 < 2) := by
  constructor
  · rw [simulateRun, simulateLoop_processed]
    norm_num [T_MAX, rows, cols]
  · intro h
    have := h.2
    norm_num at this

/-! ## Claim C8 -/

theorem fC8_density : getDensity fC8 = -1 := by
  norm_num [getDensity, Fin.sum_univ_succ, fC8]

theorem fC8_momentum :
    (∑ i, ex i * fC8 i) = 3 ∧ (∑ i, ey i * fC8 i) = 0 := by
  constructor <;> norm_num [Fin.sum_univ_succ, fC8, ex, ey]

/-- Claim C8 as stated is false on the code: for fC8 the total density is
-1, not positive, yet the velocity the equilibrium calculator derives is the
un-normalized momentum (3, 0), not (0, 0); accordingly the equilibrium
output in the rest direction is 50/9 where the claimed (0, 0) velocity would
produce w0 * rho = -4/9. -/
theorem equilibrium_velocity_not_zeroed_cex :
    getDensity fC8 ≤ 0 ∧
    equilibriumVelocity fC8 0 = (3, 0) ∧
    equilibriumVelocity fC8 0 ≠ (0, 0) ∧
    equilibrium fC8 0 0 0 = 50 / 9 ∧
    weights 0 * getDensity fC8 = -(4 / 9) := by
  have hd : (∑ i, fC8 i) = -1 := fC8_density
  have hx : (∑ i, ex i * fC8 i) = 3 := fC8_momentum.1
  have hy : (∑ i, ey i * fC8 i) = 0 := fC8_momentum.2
  refine ⟨by rw [fC8_density]; norm_num, ?_, ?_, ?_, ?_⟩
  · rw [equilibriumVelocity]
    simp only [hd, hx, hy]
    norm_num
  · rw [equilibriumVelocity]
    simp only [hd, hx, hy]
    norm_num
  · rw [equilibrium]
    simp only [hd, hx, hy, equilibriumVelocity]
    norm_num [weights, w0, ex, ey]
  · rw [fC8_density, weights]
    norm_num [w0]

/-- Claim C8 amended: when the total density is not positive, no division by
the density is performed in either function; the macroscopic velocity query
returns (0, 0) (its guard rho < 1e-14 covers every non-positive rho), but
the equilibrium calculator keeps the un-normalized momentum
(sum of ex_i f_i, sum of ey_i f_i) as its velocity, which need not be
(0, 0). -/
theorem nonpositive_density_velocity_handling (d : Fin 9 → ℚ)
    (h : getDensity d ≤ 0) :
    getVelocity d = (0, 0) ∧
    equilibriumVelocity d 0 = (∑ i, ex i * d i, ∑ i, ey i * d i) := by
  have h' : (∑ i, d i) ≤ 0 := h
  constructor
  · have hlt : (∑ i, d i) < 1 / 10 ^ 14 := lt_of_le_of_lt h' (by norm_num)
    show (if (∑ i, d i) < 1 / 10 ^ 14 then ((0 : ℚ), (0 : ℚ))
          else ((∑ i, ex i * d i) / ∑ i, d i, (∑ i, ey i * d i) / ∑ i, d i)) = (0, 0)
    rw [if_pos hlt]
  · rw [equilibriumVelocity]
    have : ¬(0 < (∑ i, d i)) := not_lt.mpr h'
    simp [this]

theorem nonpositive_density_velocity_handling_witness :
    getDensity fC8 ≤ 0 ∧
    (getVelocity fC8 = (0, 0) ∧
     equilibriumVelocity fC8 0 = (∑ i, ex i * fC8 i, ∑ i, ey i * fC8 i)) :=
  ⟨by rw [fC8_density]; norm_num,
   nonpositive_density_velocity_handling fC8 (by rw [fC8_density]; norm_num)⟩

end LBM
